import Mathlib

/-!
Shallow embedding of the greenmask integer-transformer slice:

* `src/internal/db/postgres/transformers_new/integer.go`
* `src/internal/generators/hash_reducer.go`
* `src/unnamed/part_000` (the `toolkit.Column` structure)

Go's `(value, error)` returns become `Except Err value`. Go `int64` and `int`
values are modelled as `Int` (the functions embedded here only compare and
copy them, never overflow). Per-row transform functions mutate the record
through a pointer in Go; here they return a pair
`(result, post-state of the record object)`: the second component is what the
caller's record looks like after the call, so "the record was not written"
is the statement that the second component equals the input record.

Code of the repository that is not under `src/` (the toolkit parameter /
record / driver contracts and the `transformers.Int64Limiter` /
`Int64Transformer` types) is modelled from the spec; each such definition
carries a doc comment starting with `Modelled from the spec:`.
-/

namespace Greenmask

/-- Error values produced by the embedded fragment. Go wraps errors in
message strings via `fmt.Errorf(...: %w, err)`; the embedding keeps the
underlying cause and drops the message wrapping. Oracle functions
(parameter scans, generators) may return any of these constructors. -/
inductive Err where
  | unsupportedIntSize (size : Int)
  | dynamicMinOutOfRange (size : Int)
  | dynamicMaxOutOfRange (size : Int)
  | wrongLimits (minValue maxValue : Int)
  | columnNotFound (name : String)
  | nilLimiter
  | rawIndexOutOfRange (idx : Nat)
  | setIndexOutOfRange (idx : Nat)
  | scanFailed (param : String)
  | generateFailed
  | sliceBoundsOutOfRange
  deriving Repr, DecidableEq

/-- Byte sequences (`[]byte` in Go). -/
abbrev Bytes := List Nat

/- Constants from `integer.go` lines 28-32. -/

def Int2Length : Int := 2

def Int4Length : Int := 4

def Int8Length : Int := 8

/- The Go `math` package constants used by `getIntThresholds`. -/

def mathMinInt16 : Int := -32768

def mathMaxInt16 : Int := 32767

def mathMinInt32 : Int := -2147483648

def mathMaxInt32 : Int := 2147483647

def mathMinInt64 : Int := -9223372036854775808

def mathMaxInt64 : Int := 9223372036854775807

/-- Embedding of `getIntThresholds` (integer.go lines 237-248). Note the
`Int8Length` case of the source returns `math.MinInt16, math.MaxInt16`
(line 244), not the 64-bit bounds. -/
def getIntThresholds (size : Int) : Except Err (Int × Int) :=
  if size = Int2Length then .ok (mathMinInt16, mathMaxInt16)
  else if size = Int4Length then .ok (mathMinInt32, mathMaxInt32)
  else if size = Int8Length then .ok (mathMinInt16, mathMaxInt16)
  else .error (.unsupportedIntSize size)

/-- Embedding of `limitIsValid` (integer.go lines 278-280):
`requestedThreshold >= minValue || requestedThreshold <= maxValue`. -/
def limitIsValid (requestedThreshold minValue maxValue : Int) : Bool :=
  decide (requestedThreshold ≥ minValue) || decide (requestedThreshold ≤ maxValue)

/-- Modelled from the spec: `transformers.Int64Limiter` is not under `src/`;
the spec's data model (§3) describes a Limiter as an inclusive (min,max)
range. -/
structure Int64Limiter where
  minValue : Int
  maxValue : Int
  deriving Repr, DecidableEq

/-- Modelled from the spec: `transformers.NewInt64Limiter` is not under
`src/`. The spec's Limiter invariant (§3) is `min ≤ max`; the constructor
rejects a pair violating it and otherwise stores the inclusive bounds. -/
def NewInt64Limiter (minValue maxValue : Int) : Except Err Int64Limiter :=
  if maxValue < minValue then .error (.wrongLimits minValue maxValue)
  else .ok ⟨minValue, maxValue⟩

/-- Modelled from the spec: `toolkit` validation severities are not under
`src/`; §3 distinguishes error-severity entries from the rest. -/
inductive ValidationSeverity where
  | errorValidationSeverity
  | warningValidationSeverity
  deriving Repr, DecidableEq

/-- Metadata values attached by `AddMeta` (`interface{}` in Go; the integer
transformer only stores int64 and string values). -/
inductive MetaValue where
  | intValue (i : Int)
  | stringValue (s : String)
  deriving Repr, DecidableEq

/-- Modelled from the spec: `toolkit.ValidationWarning` is not under `src/`;
§3 describes message, severity and structured metadata. -/
structure ValidationWarning where
  Msg : String
  Severity : ValidationSeverity
  Meta : List (String × MetaValue)
  deriving Repr, DecidableEq

abbrev ValidationWarnings := List ValidationWarning

/-- Modelled from the spec: a collection "is fatal" iff it contains an
error-severity entry (§3). -/
def ValidationWarnings.IsFatal (ws : ValidationWarnings) : Bool :=
  ws.any (fun w => decide (w.Severity = ValidationSeverity.errorValidationSeverity))

/-- The warning appended by `validateIntTypeAndSetLimit` when the requested
min fails `limitIsValid` (integer.go lines 292-299). -/
def intMinWarning (size minValue maxValue requestedMinValue : Int) : ValidationWarning :=
  { Msg := "requested min value is out of int" ++ toString size ++ " range"
    Severity := .errorValidationSeverity
    Meta := [("AllowedMinValue", .intValue minValue),
             ("AllowedMaxValue", .intValue maxValue),
             ("ParameterName", .stringValue "min"),
             ("ParameterValue", .intValue requestedMinValue)] }

/-- The warning appended when the requested max fails `limitIsValid`
(integer.go lines 302-310). The source attaches `ParameterName` "min" and
the requested *min* value in this branch too (lines 308-309). -/
def intMaxWarning (size minValue maxValue requestedMinValue : Int) : ValidationWarning :=
  { Msg := "requested max value is out of int" ++ toString size ++ " range"
    Severity := .errorValidationSeverity
    Meta := [("AllowedMinValue", .intValue minValue),
             ("AllowedMaxValue", .intValue maxValue),
             ("ParameterName", .stringValue "min"),
             ("ParameterValue", .intValue requestedMinValue)] }

/-- Embedding of `validateIntTypeAndSetLimit` (integer.go lines 282-330).
The Go triple `(limiter, warns, err)` becomes
`Except Err (Option Int64Limiter × ValidationWarnings)`: a Go error is
`.error`, the fatal-warnings return is `.ok (none, warns)`, and the final
`return limiter, nil, nil` is `.ok (some limiter, [])`. -/
def validateIntTypeAndSetLimit (size requestedMinValue requestedMaxValue : Int) :
    Except Err (Option Int64Limiter × ValidationWarnings) :=
  match getIntThresholds size with
  | .error e => .error e
  | .ok (minValue, maxValue) =>
    let warns : ValidationWarnings :=
      (if !limitIsValid requestedMinValue minValue maxValue
       then [intMinWarning size minValue maxValue requestedMinValue] else []) ++
      (if !limitIsValid requestedMaxValue minValue maxValue
       then [intMaxWarning size minValue maxValue requestedMinValue] else [])
    if warns.IsFatal then .ok (none, warns)
    else
      match NewInt64Limiter mathMinInt64 mathMaxInt64 with
      | .error e => .error e
      | .ok limiter =>
        if requestedMinValue ≠ 0 ∨ requestedMaxValue ≠ 0 then
          match NewInt64Limiter requestedMinValue requestedMaxValue with
          | .error e => .error e
          | .ok limiter2 => .ok (some limiter2, [])
        else .ok (some limiter, [])

/-- Embedding of `getLimiterForDynamicParameter` (integer.go lines 250-276). -/
def getLimiterForDynamicParameter (size requestedMinValue requestedMaxValue : Int) :
    Except Err Int64Limiter :=
  match getIntThresholds size with
  | .error e => .error e
  | .ok (minValue, maxValue) =>
    if !limitIsValid requestedMinValue minValue maxValue then
      .error (.dynamicMinOutOfRange size)
    else if !limitIsValid requestedMaxValue minValue maxValue then
      .error (.dynamicMaxOutOfRange size)
    else
      match NewInt64Limiter mathMinInt64 mathMaxInt64 with
      | .error e => .error e
      | .ok limiter =>
        if requestedMinValue ≠ 0 ∨ requestedMaxValue ≠ 0 then
          NewInt64Limiter requestedMinValue requestedMaxValue
        else .ok limiter

/-- Modelled from the spec: the `generators.Generator` interface (§4.1) —
`Generate(input) -> (output, error)` and `Size() -> length`. A value of this
structure is one concrete implementation of the interface. -/
structure Generator where
  generate : Bytes → Except Err Bytes
  size : Int

/-- Embedding of the `HashReducer` structure (hash_reducer.go lines 3-6). -/
structure HashReducer where
  g : Generator
  size : Int

/-- Embedding of `NewHashReducer` (hash_reducer.go lines 8-13). -/
def NewHashReducer (g : Generator) (size : Int) : HashReducer :=
  { g := g, size := size }

/-- Embedding of `HashReducer.Generate` (hash_reducer.go lines 15-22). The
source reads `res, err = hr.g.Generate(res)` where `res` is the named
result, still nil at that point — the inner generator receives the empty
slice, not `data`. The final `res[:hr.size]` panics in Go when `hr.size`
is negative or exceeds `len(res)`; the panic is modelled as
`sliceBoundsOutOfRange`. -/
def HashReducer.Generate (hr : HashReducer) (data : Bytes) : Except Err Bytes :=
  match hr.g.generate [] with
  | .error e => .error e
  | .ok res =>
    if 0 ≤ hr.size ∧ hr.size ≤ (res.length : Int) then .ok (res.take hr.size.toNat)
    else .error .sliceBoundsOutOfRange

/-- Embedding of `HashReducer.Size` (hash_reducer.go lines 24-26). -/
def HashReducer.Size (hr : HashReducer) : Int := hr.size

/-- Embedding of `toolkit.Column` (src/unnamed/part_000). Oids and attribute
numbers are opaque here and modelled as integers. -/
structure Column where
  Idx : Nat
  Name : String
  TypeName : String
  CanonicalTypeName : String
  TypeOid : Int
  Num : Int
  NotNull : Bool
  Length : Int
  OverriddenTypeName : String
  OverriddenTypeOid : Int
  deriving Repr, DecidableEq

/-- Raw column value: bytes plus a null flag (the `toolkit.RawValue` the
spec's Record contract exposes, §3/§6). -/
structure RawValue where
  Data : Bytes
  IsNull : Bool
  deriving Repr, DecidableEq

/-- Embedding of `toolkit.NewRawValue` as used by the transformer. -/
def NewRawValue (data : Bytes) (isNull : Bool) : RawValue :=
  { Data := data, IsNull := isNull }

/-- Modelled from the spec: the Record (§3) is a per-row working set whose
raw values are addressable by column index. -/
structure Record where
  values : List RawValue
  deriving Repr, DecidableEq

/-- Modelled from the spec: `GetRawColumnValueByIdx(index) -> (bytes,
isNull, error)` (§6); an invalid index is the error case. -/
def Record.GetRawColumnValueByIdx (r : Record) (idx : Nat) : Except Err RawValue :=
  match r.values.get? idx with
  | some v => .ok v
  | none => .error (.rawIndexOutOfRange idx)

/-- Modelled from the spec: `SetRawColumnValueByIdx(index, bytes, isNull) ->
error` (§6). The write either replaces the addressed value whole or fails
leaving the record unchanged ("never left with a partially written column",
§4.4). -/
def Record.SetRawColumnValueByIdx (r : Record) (idx : Nat) (v : RawValue) :
    Except Err Record :=
  if idx < r.values.length then .ok ⟨r.values.set idx v⟩
  else .error (.setIndexOutOfRange idx)

/-- Modelled from the spec: the driver contract `GetColumnByName(name) ->
(index, Column, found)` (§6). -/
structure Driver where
  getColumnByName : String → Option (Nat × Column)

/-- Modelled from the spec: a resolved `toolkit.Parameterizer` (§3, §6)
exposes `IsDynamic()` and a polymorphic `Scan(destination)`. The embedding
splits `Scan` by destination type, and a dynamic per-row scan additionally
receives the live record it reads from (§4.3); the construction-time scan
of a static parameter is `scanIntStatic`. -/
structure Parameterizer where
  isDynamic : Bool
  scanIntStatic : Except Err Int
  scanIntAt : Record → Except Err Int
  scanBool : Except Err Bool
  scanString : Except Err String

/-- A generation strategy, already specialised to bytes-in / bytes-out
(what `rit.t.Transform` consumes). -/
abbrev GenFn := Bytes → Except Err Bytes

/-- Big-endian byte decoding used to turn generator output into a number. -/
def bytesToNat (bs : Bytes) : Nat :=
  bs.foldl (fun acc b => acc * 256 + b) 0

/-- Decimal text encoding of the produced integer (raw Postgres values in
this pipeline are text-format bytes). -/
def encodeIntBytes (n : Int) : Bytes :=
  (toString n).toList.map Char.toNat

/-- Modelled from the spec: `transformers.Int64Transformer.Transform` is not
under `src/`. Per §4.4 step 5 it feeds the raw input bytes to the Generator
and deterministically maps the candidate into the inclusive [min,max]
range; per §9 the per-row Limiter travels through the ambient context, so
the call takes an optional context Limiter that overrides the
construction-time one when present. -/
def Int64TransformerFn (g : GenFn) (limiter : Int64Limiter)
    (ctxLimiter : Option Int64Limiter) (data : Bytes) : Except Err Bytes :=
  match g data with
  | .error e => .error e
  | .ok out =>
    let l := ctxLimiter.getD limiter
    .ok (encodeIntBytes (l.minValue + (bytesToNat out : Int) % (l.maxValue - l.minValue + 1)))

/-- Modelled from the spec: `transformers.NewInt64Transformer` is not under
`src/`; it packages the generator with the construction-time Limiter (§2,
§4.4). -/
def NewInt64Transformer (g : GenFn) (limiter : Int64Limiter) :
    Except Err (Option Int64Limiter → Bytes → Except Err Bytes) :=
  .ok (Int64TransformerFn g limiter)

/-- Embedding of the `IntegerTransformer` structure (integer.go lines
75-88). -/
structure IntegerTransformer where
  columnName : String
  keepNull : Bool
  affectedColumns : List (Nat × String)
  columnIdx : Nat
  t : Option Int64Limiter → Bytes → Except Err Bytes
  dynamicMode : Bool
  intSize : Int
  columnParam : Parameterizer
  minParam : Parameterizer
  maxParam : Parameterizer
  keepNullParam : Parameterizer

/-- Embedding of `NewIntegerTransformer` (integer.go lines 90-161). The Go
triple `(transformer, warnings, error)` becomes
`Except Err (Option IntegerTransformer × ValidationWarnings)`: the
fatal-warnings return is `.ok (none, warns)` and success is
`.ok (some rit, [])`. `minVal`/`maxVal` start at the int64 zero value and
are only scanned when not in dynamic mode (lines 93, 124-131). The
non-fatal nil-limiter outcome of `validateIntTypeAndSetLimit` cannot occur;
it is mapped to `nilLimiter` (Go would hand a nil pointer on). -/
def NewIntegerTransformer (driver : Driver)
    (columnParam minParam maxParam keepNullParam : Parameterizer) (g : GenFn) :
    Except Err (Option IntegerTransformer × ValidationWarnings) :=
  let dynamicMode := minParam.isDynamic || maxParam.isDynamic
  match columnParam.scanString with
  | .error e => .error e
  | .ok columnName =>
    match driver.getColumnByName columnName with
    | none => .error (.columnNotFound columnName)
    | some (idx, c) =>
      let intSize : Int := if c.Length = -1 then 8 else c.Length
      match keepNullParam.scanBool with
      | .error e => .error e
      | .ok keepNull =>
        match (if dynamicMode then Except.ok 0 else minParam.scanIntStatic) with
        | .error e => .error e
        | .ok minVal =>
          match (if dynamicMode then Except.ok 0 else maxParam.scanIntStatic) with
          | .error e => .error e
          | .ok maxVal =>
            match validateIntTypeAndSetLimit intSize minVal maxVal with
            | .error e => .error e
            | .ok (limiterOpt, limitsWarnings) =>
              if limitsWarnings.IsFatal then .ok (none, limitsWarnings)
              else
                match limiterOpt with
                | none => .error .nilLimiter
                | some limiter =>
                  match NewInt64Transformer g limiter with
                  | .error e => .error e
                  | .ok t =>
                    .ok (some {
                      columnName := columnName
                      keepNull := keepNull
                      affectedColumns := [(idx, columnName)]
                      columnIdx := idx
                      t := t
                      dynamicMode := dynamicMode
                      intSize := intSize
                      columnParam := columnParam
                      minParam := minParam
                      maxParam := maxParam
                      keepNullParam := keepNullParam }, [])

/-- Embedding of `IntegerTransformer.GetAffectedColumns` (integer.go lines
163-165). -/
def IntegerTransformer.GetAffectedColumns (rit : IntegerTransformer) :
    List (Nat × String) :=
  rit.affectedColumns

/-- Embedding of `(*IntegerTransformer).dynamicTransform` (integer.go lines
175-209). The pair's second component is the state of the Go record object
after the call (only `SetRawColumnValueByIdx` mutates it). -/
def IntegerTransformer.dynamicTransform (rit : IntegerTransformer) (r : Record) :
    Except Err Record × Record :=
  match r.GetRawColumnValueByIdx rit.columnIdx with
  | .error e => (.error e, r)
  | .ok val =>
    if val.IsNull && rit.keepNull then (.ok r, r)
    else
      match rit.minParam.scanIntAt r with
      | .error e => (.error e, r)
      | .ok minVal =>
        match rit.maxParam.scanIntAt r with
        | .error e => (.error e, r)
        | .ok maxVal =>
          match getLimiterForDynamicParameter rit.intSize minVal maxVal with
          | .error e => (.error e, r)
          | .ok limiter =>
            match rit.t (some limiter) val.Data with
            | .error e => (.error e, r)
            | .ok res =>
              match r.SetRawColumnValueByIdx rit.columnIdx (NewRawValue res false) with
              | .error e => (.error e, r)
              | .ok r2 => (.ok r2, r2)

/-- Embedding of `(*IntegerTransformer).staticTransform` (integer.go lines
211-228); same pairing convention as `dynamicTransform`. No context Limiter
is installed here, so `rit.t` runs with its construction-time Limiter. -/
def IntegerTransformer.staticTransform (rit : IntegerTransformer) (r : Record) :
    Except Err Record × Record :=
  match r.GetRawColumnValueByIdx rit.columnIdx with
  | .error e => (.error e, r)
  | .ok val =>
    if val.IsNull && rit.keepNull then (.ok r, r)
    else
      match rit.t none val.Data with
      | .error e => (.error e, r)
      | .ok res =>
        match r.SetRawColumnValueByIdx rit.columnIdx (NewRawValue res false) with
        | .error e => (.error e, r)
        | .ok r2 => (.ok r2, r2)

/-- Embedding of `(*IntegerTransformer).Transform` (integer.go lines
230-235). -/
def IntegerTransformer.Transform (rit : IntegerTransformer) (r : Record) :
    Except Err Record × Record :=
  if rit.dynamicMode then rit.dynamicTransform r
  else rit.staticTransform r

/-! ## Helper lemmas -/

/-- Decidable equality for `Except`, so concrete runs of the embedded
functions can be settled by `decide`. -/
instance instDecidableEqExcept {ε α : Type} [DecidableEq ε] [DecidableEq α] :
    DecidableEq (Except ε α) := fun x y =>
  match x, y with
  | .error e₁, .error e₂ =>
    if h : e₁ = e₂ then .isTrue (by rw [h])
    else .isFalse (fun hc => h (by cases hc; rfl))
  | .ok a₁, .ok a₂ =>
    if h : a₁ = a₂ then .isTrue (by rw [h])
    else .isFalse (fun hc => h (by cases hc; rfl))
  | .error _, .ok _ => .isFalse (fun hc => Except.noConfusion hc)
  | .ok _, .error _ => .isFalse (fun hc => Except.noConfusion hc)

/-- When the type range is well-ordered (`mn ≤ mx`), the disjunctive check
of `limitIsValid` accepts every threshold. -/
theorem limitIsValid_of_min_le_max (t mn mx : Int) (h : mn ≤ mx) :
    limitIsValid t mn mx = true := by
  simp only [limitIsValid, Bool.or_eq_true, decide_eq_true_eq]
  omega

/-! ## Claim theorems -/

/-- C4: `limitIsValid` accepts a requested threshold `t` against a type
range `[typeMin, typeMax]` iff `t ≥ typeMin` or `t ≤ typeMax`, and rejects
`t` iff `t` is simultaneously below `typeMin` and above `typeMax`. -/
theorem limitIsValid_iff (t typeMin typeMax : Int) :
    (limitIsValid t typeMin typeMax = true ↔ (t ≥ typeMin ∨ t ≤ typeMax)) ∧
    (limitIsValid t typeMin typeMax = false ↔ (t < typeMin ∧ t > typeMax)) := by
  constructor
  · simp only [limitIsValid, Bool.or_eq_true, decide_eq_true_eq]
  · simp only [limitIsValid, Bool.or_eq_false_iff, decide_eq_false_iff_not, not_le]

/-- C2: `getIntThresholds` returns the exact int16 range for size 2 and the
exact int32 range for size 4, but for size 8 it returns the int16 range
`(-32768, 32767)` — not the 64-bit signed range the claim states — and for
an unsupported size it returns an error. -/
theorem getIntThresholds_values :
    getIntThresholds 2 = .ok (-32768, 32767) ∧
    getIntThresholds 4 = .ok (-2147483648, 2147483647) ∧
    getIntThresholds 8 = .ok (-32768, 32767) ∧
    getIntThresholds 8 ≠ .ok (-9223372036854775808, 9223372036854775807) ∧
    getIntThresholds 3 = .error (.unsupportedIntSize 3) := by
  decide

/-- C1 counterexample: on an int2 column (size 2) with sentinel requested
bounds min=0, max=0, both the static and the dynamic Limiter builders
produce the full int64 range `[-2^63, 2^63-1]`, not `[-32768, 32767]`. -/
theorem int2_sentinel_limiter_counterexample :
    validateIntTypeAndSetLimit 2 0 0 =
      .ok (some ⟨-9223372036854775808, 9223372036854775807⟩, []) ∧
    getLimiterForDynamicParameter 2 0 0 =
      .ok ⟨-9223372036854775808, 9223372036854775807⟩ ∧
    (⟨-9223372036854775808, 9223372036854775807⟩ : Int64Limiter) ≠ ⟨-32768, 32767⟩ := by
  decide

/-- C1 amended: for every supported width w ∈ {2,4,8}, when both requested
bounds are the sentinel 0, the Limiter built by `validateIntTypeAndSetLimit`
(static mode) and by `getLimiterForDynamicParameter` (dynamic mode) has
inclusive bounds equal to the full 64-bit signed range, regardless of w. -/
theorem sentinel_zero_limiter_is_full_int64_for_all_widths (s : Int)
    (h : s = 2 ∨ s = 4 ∨ s = 8) :
    validateIntTypeAndSetLimit s 0 0 =
      .ok (some ⟨mathMinInt64, mathMaxInt64⟩, []) ∧
    getLimiterForDynamicParameter s 0 0 = .ok ⟨mathMinInt64, mathMaxInt64⟩ := by
  rcases h with h | h | h <;> subst h <;> decide

/-- Witness for the C1 amended theorem at width 2. -/
theorem sentinel_zero_limiter_witness :
    validateIntTypeAndSetLimit 2 0 0 =
      .ok (some ⟨mathMinInt64, mathMaxInt64⟩, []) ∧
    getLimiterForDynamicParameter 2 0 0 = .ok ⟨mathMinInt64, mathMaxInt64⟩ :=
  sentinel_zero_limiter_is_full_int64_for_all_widths 2 (Or.inl rfl)

/-- C3: on an int2 column a requested min of 100000 (with max 0) passes
`limitIsValid` (the OR accepts any value ≥ -32768), so
`validateIntTypeAndSetLimit` appends NO warning at all — the fatal
error-severity warning carrying AllowedMinValue=-32768 /
AllowedMaxValue=32767 that the claim requires never arises; construction
instead fails on the malformed (100000, 0) limiter pair. -/
theorem int2_min_100000_produces_no_warning :
    limitIsValid 100000 (-32768) 32767 = true ∧
    validateIntTypeAndSetLimit 2 100000 0 = .error (.wrongLimits 100000 0) := by
  decide

/-- C9: `HashReducer.Generate` hands the inner generator the nil result
slice rather than its input bytes, so its output is the same for every
input; wrapping any (deterministic) inner generator yields one constant
reduced output. -/
theorem hashReducer_output_independent_of_input (hr : HashReducer) (d1 d2 : Bytes) :
    hr.Generate d1 = hr.Generate d2 := rfl

/-- C8: `Size()` is the configured reduction length, and every successful
`Generate` call returns exactly the first `Size()` bytes of the inner
generator's output — in particular the output length equals `Size()`. -/
theorem hashReducer_generate_length_eq_size (g : Generator) (n : Int)
    (data out : Bytes) (h : (NewHashReducer g n).Generate data = .ok out) :
    (NewHashReducer g n).Size = n ∧
    (out.length : Int) = (NewHashReducer g n).Size ∧
    ∃ inner, g.generate [] = .ok inner ∧ out = inner.take n.toNat := by
  unfold HashReducer.Generate NewHashReducer at h
  dsimp only at h
  rcases hg : g.generate [] with e | inner <;> rw [hg] at h
  · exact Except.noConfusion h
  · dsimp only at h
    split at h
    · rename_i hb
      injection h with hout
      subst hout
      refine ⟨rfl, ?_, inner, hg ▸ rfl, rfl⟩
      simp only [HashReducer.Size, NewHashReducer, List.length_take]
      have h0 : (0 : Int) ≤ n := hb.1
      have h1 : n ≤ (inner.length : Int) := hb.2
      omega
    · exact Except.noConfusion h

/-- Demonstration inner generator (three bytes of output) for the
HashReducer witness. -/
def hrDemoGen : Generator :=
  { generate := fun _ => .ok [1, 2, 3], size := 3 }

/-- Witness for C8 at a reducer of size 2 over `hrDemoGen`. -/
theorem hashReducer_generate_length_witness :
    (NewHashReducer hrDemoGen 2).Size = 2 ∧
    (([1, 2] : Bytes).length : Int) = (NewHashReducer hrDemoGen 2).Size ∧
    ∃ inner, hrDemoGen.generate [] = .ok inner ∧
      ([1, 2] : Bytes) = inner.take (2 : Int).toNat :=
  hashReducer_generate_length_eq_size hrDemoGen 2 [9] [1, 2] rfl

/-- On every supported size the thresholds are returned with min ≤ max. -/
theorem getIntThresholds_supported (s : Int) (h : s = 2 ∨ s = 4 ∨ s = 8) :
    ∃ mn mx, getIntThresholds s = .ok (mn, mx) ∧ mn ≤ mx := by
  rcases h with h | h | h <;> subst h
  · exact ⟨-32768, 32767, by decide, by decide⟩
  · exact ⟨-2147483648, 2147483647, by decide, by decide⟩
  · exact ⟨-32768, 32767, by decide, by decide⟩

/-- C5: for every supported size s ∈ {2,4,8} and all requested bounds,
`limitIsValid` accepts every threshold against the size's type range (the
thresholds satisfy mn ≤ mx, making the OR a tautology), so
`validateIntTypeAndSetLimit` can only ever return an empty warning
collection and `getLimiterForDynamicParameter` never returns its
out-of-range errors. -/
theorem supported_sizes_validation_never_fires (s a b : Int)
    (h : s = 2 ∨ s = 4 ∨ s = 8) :
    (∀ mn mx, getIntThresholds s = .ok (mn, mx) → ∀ t, limitIsValid t mn mx = true) ∧
    (∀ lim ws, validateIntTypeAndSetLimit s a b = .ok (lim, ws) → ws = []) ∧
    getLimiterForDynamicParameter s a b ≠ .error (.dynamicMinOutOfRange s) ∧
    getLimiterForDynamicParameter s a b ≠ .error (.dynamicMaxOutOfRange s) := by
  obtain ⟨mn₀, mx₀, ht, hle⟩ := getIntThresholds_supported s h
  have hmin := limitIsValid_of_min_le_max a mn₀ mx₀ hle
  have hmax := limitIsValid_of_min_le_max b mn₀ mx₀ hle
  refine ⟨?_, ?_, ?_, ?_⟩
  · intro mn mx hmn t
    rw [ht] at hmn
    injection hmn with hp
    cases hp
    exact limitIsValid_of_min_le_max t mn₀ mx₀ hle
  · intro lim ws hv
    unfold validateIntTypeAndSetLimit at hv
    rw [ht] at hv
    simp only [hmin, hmax, Bool.not_true, Bool.false_eq_true, if_false,
      List.nil_append, ValidationWarnings.IsFatal, List.any_nil] at hv
    split at hv
    · exact Except.noConfusion hv
    · rename_i lim₀ _
      split at hv
      · split at hv
        · exact Except.noConfusion hv
        · injection hv with hp
          injection hp with _ hws
          exact hws.symm
      · injection hv with hp
        injection hp with _ hws
        exact hws.symm
  · intro hc
    unfold getLimiterForDynamicParameter at hc
    rw [ht] at hc
    simp only [hmin, hmax, Bool.not_true, Bool.false_eq_true, if_false] at hc
    split at hc
    · rename_i e he
      rw [show NewInt64Limiter mathMinInt64 mathMaxInt64 =
        Except.ok ⟨mathMinInt64, mathMaxInt64⟩ from by decide] at he
      exact Except.noConfusion he
    · rename_i lim₀ _
      split at hc
      · unfold NewInt64Limiter at hc
        split at hc
        · injection hc with he
          exact Err.noConfusion he
        · exact Except.noConfusion hc
      · exact Except.noConfusion hc
  · intro hc
    unfold getLimiterForDynamicParameter at hc
    rw [ht] at hc
    simp only [hmin, hmax, Bool.not_true, Bool.false_eq_true, if_false] at hc
    split at hc
    · rename_i e he
      rw [show NewInt64Limiter mathMinInt64 mathMaxInt64 =
        Except.ok ⟨mathMinInt64, mathMaxInt64⟩ from by decide] at he
      exact Except.noConfusion he
    · rename_i lim₀ _
      split at hc
      · unfold NewInt64Limiter at hc
        split at hc
        · injection hc with he
          exact Err.noConfusion he
        · exact Except.noConfusion hc
      · exact Except.noConfusion hc

/-- Witness for C5 at size 2 with requested bounds (5, 7): the int2
thresholds accept the threshold 5. -/
theorem supported_sizes_validation_never_fires_witness :
    limitIsValid 5 (-32768) 32767 = true :=
  (supported_sizes_validation_never_fires 2 5 7 (Or.inl rfl)).1 (-32768) 32767 (by decide) 5

/-- C6: when the bound column's raw value is null and `keep_null` is true,
both the static and the dynamic transform paths return the record
unchanged — for every transformer with those fields, i.e. independently of
whatever scanning or generation behavior it carries, so no generation and
no min/max re-scan takes place for that row. -/
theorem keep_null_returns_record_unchanged
    (rit : IntegerTransformer) (r : Record) (val : RawValue)
    (hk : rit.keepNull = true)
    (hv : r.GetRawColumnValueByIdx rit.columnIdx = .ok val)
    (hnull : val.IsNull = true) :
    rit.staticTransform r = (.ok r, r) ∧
    rit.dynamicTransform r = (.ok r, r) ∧
    rit.Transform r = (.ok r, r) := by
  have hs : rit.staticTransform r = (.ok r, r) := by
    unfold IntegerTransformer.staticTransform
    simp [hv, hnull, hk]
  have hd : rit.dynamicTransform r = (.ok r, r) := by
    unfold IntegerTransformer.dynamicTransform
    simp [hv, hnull, hk]
  refine ⟨hs, hd, ?_⟩
  unfold IntegerTransformer.Transform
  split
  · exact hd
  · exact hs

/-- Demonstration parameterizer (static, fixed values) for witnesses. -/
def demoParam : Parameterizer :=
  { isDynamic := false, scanIntStatic := .ok 0, scanIntAt := fun _ => .ok 0,
    scanBool := .ok true, scanString := .ok "c" }

/-- Demonstration transformer bound to column 0 with keep_null=true whose
generation step always fails. -/
def demoNullRit : IntegerTransformer :=
  { columnName := "c", keepNull := true, affectedColumns := [(0, "c")],
    columnIdx := 0, t := fun _ _ => .error .generateFailed, dynamicMode := false,
    intSize := 2, columnParam := demoParam, minParam := demoParam,
    maxParam := demoParam, keepNullParam := demoParam }

/-- Single-column record holding a null raw value. -/
def demoNullRec : Record := ⟨[{ Data := [], IsNull := true }]⟩

/-- Witness for C6 on a concrete null record. -/
theorem keep_null_witness :
    demoNullRit.staticTransform demoNullRec = (.ok demoNullRec, demoNullRec) ∧
    demoNullRit.dynamicTransform demoNullRec = (.ok demoNullRec, demoNullRec) ∧
    demoNullRit.Transform demoNullRec = (.ok demoNullRec, demoNullRec) :=
  keep_null_returns_record_unchanged demoNullRit demoNullRec
    { Data := [], IsNull := true } rfl rfl rfl

/-- C10: if a per-row transform call (static or dynamic path, or the
dispatching `Transform`) returns an error, the record post-state equals the
input record: every error return happens before the single write, so the
bound column keeps its prior bytes and null flag. -/
theorem transform_error_leaves_record_unchanged
    (rit : IntegerTransformer) (r : Record) (e : Err) :
    ((rit.staticTransform r).1 = .error e → (rit.staticTransform r).2 = r) ∧
    ((rit.dynamicTransform r).1 = .error e → (rit.dynamicTransform r).2 = r) ∧
    ((rit.Transform r).1 = .error e → (rit.Transform r).2 = r) := by
  have hs : (rit.staticTransform r).1 = .error e → (rit.staticTransform r).2 = r := by
    unfold IntegerTransformer.staticTransform
    split
    · intro _; rfl
    · split
      · intro h1; exact Except.noConfusion h1
      · split
        · intro _; rfl
        · split
          · intro _; rfl
          · intro h1; exact Except.noConfusion h1
  have hd : (rit.dynamicTransform r).1 = .error e → (rit.dynamicTransform r).2 = r := by
    unfold IntegerTransformer.dynamicTransform
    split
    · intro _; rfl
    · split
      · intro h1; exact Except.noConfusion h1
      · split
        · intro _; rfl
        · split
          · intro _; rfl
          · split
            · intro _; rfl
            · split
              · intro _; rfl
              · split
                · intro _; rfl
                · intro h1; exact Except.noConfusion h1
  refine ⟨hs, hd, ?_⟩
  unfold IntegerTransformer.Transform
  split
  · exact hd
  · exact hs

/-- Single-column record holding a non-null raw value. -/
def demoValRec : Record := ⟨[{ Data := [53], IsNull := false }]⟩

/-- Witness for C10: the failing generation step of `demoNullRit` on a
non-null record leaves the record post-state unchanged. -/
theorem transform_error_witness :
    (demoNullRit.staticTransform demoValRec).2 = demoValRec :=
  (transform_error_leaves_record_unchanged demoNullRit demoValRec .generateFailed).1 rfl

/-- Inversion of a successful construction: the flag equals the disjunction
of the parameters' dynamic flags, the min/max values fed to the validator
come from the static scans only when not in dynamic mode (otherwise they
are the int64 zero values), and the stored typed transformer closes over
the validator's Limiter. -/
theorem newIntegerTransformer_ok_inv
    (d : Driver) (cp mnp mxp kp : Parameterizer) (g : GenFn)
    (rit : IntegerTransformer) (ws : ValidationWarnings)
    (h : NewIntegerTransformer d cp mnp mxp kp g = .ok (some rit, ws)) :
    rit.dynamicMode = (mnp.isDynamic || mxp.isDynamic) ∧
    rit.minParam = mnp ∧ rit.maxParam = mxp ∧
    ∃ minVal maxVal limiter ws2,
      (if (mnp.isDynamic || mxp.isDynamic) then Except.ok 0 else mnp.scanIntStatic) =
        .ok minVal ∧
      (if (mnp.isDynamic || mxp.isDynamic) then Except.ok 0 else mxp.scanIntStatic) =
        .ok maxVal ∧
      validateIntTypeAndSetLimit rit.intSize minVal maxVal = .ok (some limiter, ws2) ∧
      rit.t = Int64TransformerFn g limiter := by
  unfold NewIntegerTransformer at h
  dsimp only at h
  split at h
  · exact Except.noConfusion h
  · split at h
    · exact Except.noConfusion h
    · split at h
      · exact Except.noConfusion h
      · split at h
        · exact Except.noConfusion h
        · rename_i minVal hminscan
          split at h
          · exact Except.noConfusion h
          · rename_i maxVal hmaxscan
            split at h
            · exact Except.noConfusion h
            · rename_i pr hvalid
              split at h
              · injection h with hp
                injection hp with h1 _
                exact Option.noConfusion h1
              · split at h
                · exact Except.noConfusion h
                · rename_i limiter
                  split at h
                  · rename_i e hn
                    unfold NewInt64Transformer at hn
                    exact Except.noConfusion hn
                  · rename_i t hn
                    unfold NewInt64Transformer at hn
                    injection hn with hteq
                    injection h with hp
                    injection hp with h1 h2
                    injection h1 with h3
                    subst h3
                    exact ⟨rfl, rfl, rfl, minVal, maxVal, limiter, pr, hminscan,
                      hmaxscan, hvalid, hteq.symm⟩

/-- C7: if either the min or max parameter reports dynamic at construction,
the transformer enters dynamic mode: the stored flag equals
`minParam.IsDynamic || maxParam.IsDynamic`; construction then does not
consult the static min/max scans (replacing them changes nothing but the
stored parameterizers) and every per-row `Transform` call runs
`dynamicTransform`, which re-scans both parameters from the current record
and builds a fresh Limiter from this call's scanned values before
generating. With neither parameter dynamic, the static min/max scans happen
at construction and determine the construction-time Limiter captured inside
the stored typed transformer `t`, and every per-row `Transform` call runs
`staticTransform`, which never consults the min/max parameters and runs
that construction-time `t`. -/
theorem dynamic_mode_selection_and_scan_discipline
    (d : Driver) (cp mnp mxp kp : Parameterizer) (g : GenFn) (r : Record)
    (x y : Except Err Int) :
    (∀ rit ws, NewIntegerTransformer d cp mnp mxp kp g = .ok (some rit, ws) →
      rit.dynamicMode = (mnp.isDynamic || mxp.isDynamic)) ∧
    ((mnp.isDynamic || mxp.isDynamic) = true →
      NewIntegerTransformer d cp { mnp with scanIntStatic := x }
          { mxp with scanIntStatic := y } kp g =
        (NewIntegerTransformer d cp mnp mxp kp g).map (fun p =>
          (p.1.map (fun rit => { rit with
              minParam := { mnp with scanIntStatic := x }
              maxParam := { mxp with scanIntStatic := y } }), p.2))) ∧
    (∀ rit : IntegerTransformer, rit.dynamicMode = true →
      rit.Transform r = rit.dynamicTransform r) ∧
    (∀ (rit : IntegerTransformer) (val : RawValue) (mnv mxv : Int),
      r.GetRawColumnValueByIdx rit.columnIdx = .ok val →
      (val.IsNull && rit.keepNull) = false →
      rit.minParam.scanIntAt r = .ok mnv →
      rit.maxParam.scanIntAt r = .ok mxv →
      rit.dynamicTransform r =
        match getLimiterForDynamicParameter rit.intSize mnv mxv with
        | .error e => (.error e, r)
        | .ok limiter =>
          match rit.t (some limiter) val.Data with
          | .error e => (.error e, r)
          | .ok res =>
            match r.SetRawColumnValueByIdx rit.columnIdx (NewRawValue res false) with
            | .error e => (.error e, r)
            | .ok r2 => (.ok r2, r2)) ∧
    ((mnp.isDynamic || mxp.isDynamic) = false →
      ∀ mnv mxv, mnp.scanIntStatic = .ok mnv → mxp.scanIntStatic = .ok mxv →
        ∀ rit ws, NewIntegerTransformer d cp mnp mxp kp g = .ok (some rit, ws) →
          ∃ limiter ws2,
            validateIntTypeAndSetLimit rit.intSize mnv mxv = .ok (some limiter, ws2) ∧
            rit.t = Int64TransformerFn g limiter) ∧
    (∀ rit : IntegerTransformer, rit.dynamicMode = false →
      rit.Transform r = rit.staticTransform r ∧
      ∀ p q : Parameterizer,
        ({ rit with minParam := p, maxParam := q } : IntegerTransformer).staticTransform r =
          rit.staticTransform r) := by
  refine ⟨?_, ?_, ?_, ?_, ?_, ?_⟩
  · intro rit ws h
    exact (newIntegerTransformer_ok_inv d cp mnp mxp kp g rit ws h).1
  · intro hdyn
    unfold NewIntegerTransformer
    dsimp only
    simp only [hdyn, if_true]
    cases hcs : cp.scanString with
    | error e => simp [hcs, Except.map]
    | ok name =>
      cases hcol : d.getColumnByName name with
      | none => simp [hcs, hcol, Except.map]
      | some pr =>
        obtain ⟨idx, c⟩ := pr
        cases hkb : kp.scanBool with
        | error e => simp [hcs, hcol, hkb, Except.map]
        | ok kn =>
          cases hval : validateIntTypeAndSetLimit (if c.Length = -1 then 8 else c.Length) 0 0 with
          | error e => simp [hcs, hcol, hkb, hval, Except.map]
          | ok pr2 =>
            obtain ⟨limOpt, ws⟩ := pr2
            cases hf : ws.IsFatal with
            | true => simp [hcs, hcol, hkb, hval, hf, Except.map]
            | false =>
              cases limOpt with
              | none => simp [hcs, hcol, hkb, hval, hf, Except.map]
              | some lim => simp [hcs, hcol, hkb, hval, hf, Except.map, NewInt64Transformer]
  · intro rit hrit
    unfold IntegerTransformer.Transform
    simp [hrit]
  · intro rit val mnv mxv hval hnn hmn hmx
    unfold IntegerTransformer.dynamicTransform
    simp only [hval, hnn, hmn, hmx, Bool.false_eq_true, if_false]
  · intro hstat mnv mxv hmn hmx rit ws hok
    obtain ⟨-, -, -, minVal, maxVal, limiter, ws2, hminscan, hmaxscan, hvalid, ht⟩ :=
      newIntegerTransformer_ok_inv d cp mnp mxp kp g rit ws hok
    rw [hstat] at hminscan hmaxscan
    simp only [Bool.false_eq_true, if_false] at hminscan hmaxscan
    rw [hmn] at hminscan
    rw [hmx] at hmaxscan
    injection hminscan with h1
    injection hmaxscan with h2
    subst h1
    subst h2
    exact ⟨limiter, ws2, hvalid, ht⟩
  · intro rit hrit
    constructor
    · unfold IntegerTransformer.Transform
      simp [hrit]
    · intro p q
      rfl

/-- Demonstration column of storage length 2 for witnesses. -/
def demoColumn : Column :=
  { Idx := 0, Name := "c", TypeName := "int2", CanonicalTypeName := "int2",
    TypeOid := 21, Num := 1, NotNull := false, Length := 2,
    OverriddenTypeName := "", OverriddenTypeOid := 0 }

/-- Demonstration driver resolving only the column named "c". -/
def demoDriver : Driver :=
  ⟨fun name => if name = "c" then some (0, demoColumn) else none⟩

/-- Demonstration generation strategy (one constant byte). -/
def demoGenFn : GenFn := fun _ => .ok [0]

/-- Demonstration dynamic parameterizer. -/
def demoDynParam : Parameterizer :=
  { isDynamic := true, scanIntStatic := .ok 0, scanIntAt := fun _ => .ok 1,
    scanBool := .ok true, scanString := .ok "c" }

/-- Demonstration transformer in dynamic mode. -/
def demoDynRit : IntegerTransformer :=
  { columnName := "c", keepNull := true, affectedColumns := [(0, "c")],
    columnIdx := 0, t := fun _ _ => .ok [48], dynamicMode := true,
    intSize := 2, columnParam := demoParam, minParam := demoDynParam,
    maxParam := demoDynParam, keepNullParam := demoParam }

/-- Witness for C7: the concrete dynamic-mode transformer dispatches every
per-row call to `dynamicTransform`. -/
theorem dynamic_mode_selection_witness :
    demoDynRit.Transform demoValRec = demoDynRit.dynamicTransform demoValRec :=
  (dynamic_mode_selection_and_scan_discipline demoDriver demoParam demoDynParam
    demoDynParam demoParam demoGenFn demoValRec (.ok 0) (.ok 0)).2.2.1 demoDynRit rfl

end Greenmask
